import Mathlib

/-!
Shallow embedding of `book_library.py` (classes `Book` and `LibraryDatabase`).

Modelling conventions:
* Python strings are `List Char`; a text file is a list of its lines
  (`FileLines`), each line without its trailing newline; an absent file is
  `none : Option FileLines`.
* Python's `str.strip` is `pyStrip`, `str.split("/")` is `splitOnChar '/'`,
  `int(...)` on a string is `pyParseInt` (optional surrounding whitespace,
  optional sign, then decimal digits), and `str(...)` on an integer is
  `intToChars`.
* Python's stable `sorted(self.books, key=lambda b: b.year)` is `sortByYear`,
  a stable insertion sort on the `year` field.
* Methods that in Python mutate `self` and the backing file are embedded as
  functions from (database state, file state) to new states plus a result
  describing the console outcome.
-/

/-- Python `str.strip()`: drop whitespace from both ends. -/
def pyStrip (cs : List Char) : List Char :=
  ((cs.dropWhile Char.isWhitespace).reverse.dropWhile Char.isWhitespace).reverse

/-- Python `str.split(sep)` for a one-character separator: `"".split(sep) = [""]`,
and every occurrence of the separator starts a new field. -/
def splitOnChar (sep : Char) : List Char → List (List Char)
  | [] => [[]]
  | c :: cs =>
    match splitOnChar sep cs with
    | [] => [[]]
    | p :: ps => if c = sep then [] :: p :: ps else (c :: p) :: ps

/-- Join fields with a one-character separator; left inverse of `splitOnChar`. -/
def joinSep (sep : Char) : List (List Char) → List Char
  | [] => []
  | [p] => p
  | p :: q :: ps => p ++ sep :: joinSep sep (q :: ps)

/-- Value of a list of decimal digit characters. -/
def digitsVal (ds : List Char) : Nat :=
  ds.foldl (fun acc c => 10 * acc + (c.toNat - 48)) 0

/-- Python `int(s)` on a string: strip whitespace, allow an optional sign,
then require a non-empty run of decimal digits; `none` models `ValueError`.
(Underscore grouping and non-ASCII digits are not modelled.) -/
def pyParseInt (cs : List Char) : Option Int :=
  match pyStrip cs with
  | '+' :: ds =>
    if !ds.isEmpty && ds.all Char.isDigit then some (digitsVal ds) else none
  | '-' :: ds =>
    if !ds.isEmpty && ds.all Char.isDigit then some (-(digitsVal ds : Int)) else none
  | ds =>
    if !ds.isEmpty && ds.all Char.isDigit then some (digitsVal ds) else none

/-- Python `str(n)` for an integer. -/
def intToChars (n : Int) : List Char :=
  (toString n).toList

/-- `class Book`: title, author, ISBN, year (the constructor has already
converted the year to an integer). -/
structure Book where
  title : List Char
  author : List Char
  isbn : List Char
  year : Int
deriving DecidableEq

/-- `Book.to_file_format`: `f"{self.title}/{self.author}/{self.isbn}/{self.year}"`. -/
def Book.to_file_format (b : Book) : List Char :=
  b.title ++ ('/' :: (b.author ++ ('/' :: (b.isbn ++ ('/' :: intToChars b.year)))))

/-- Insert a book into a list that is sorted ascending by year, after all
books with a strictly smaller year and after earlier books of equal year. -/
def insertByYear (b : Book) : List Book → List Book
  | [] => [b]
  | c :: cs => if b.year ≤ c.year then b :: c :: cs else c :: insertByYear b cs

/-- Python `sorted(books, key=lambda b: b.year)`: stable sort ascending by year. -/
def sortByYear : List Book → List Book
  | [] => []
  | b :: bs => insertByYear b (sortByYear bs)

/-- Outcome of examining one line of the backing file in `_load_from_file`. -/
inductive LineResult where
  | blank : LineResult
  | book : Book → LineResult
  | invalid : List Char → LineResult
deriving DecidableEq

/-- The reason recorded when a line does not split into exactly 4 fields. -/
def invalidFormatMsg : List Char :=
  "Invalid format (expected 4 fields)".toList

/-- The reason recorded when the year field of a 4-field line is not an
integer (Python `str(ValueError)` from `int`). -/
def invalidIntMsg (y : List Char) : List Char :=
  "invalid literal for int() with base 10: ".toList ++ y

/-- The per-line body of the loop in `_load_from_file`: skip blank lines,
split the stripped line on `/`, require exactly 4 fields and an integer
4th field. -/
def parseLine (line : List Char) : LineResult :=
  let s := pyStrip line
  if s.isEmpty then .blank
  else
    match splitOnChar '/' s with
    | [t, a, i, y] =>
      match pyParseInt y with
      | some n => .book (Book.mk t a i n)
      | none => .invalid (invalidIntMsg y)
    | _ => .invalid invalidFormatMsg

/-- A load warning: 1-based line number, stripped line text, reason. -/
abbrev Warning := Nat × List Char × List Char

/-- The loop of `_load_from_file` over the lines of the file, with
`enumerate(f, start=1)` line numbering: accumulate parsed books in order
and warnings for invalid lines. -/
def loadLines : Nat → List (List Char) → List Book × List Warning
  | _, [] => ([], [])
  | n, l :: ls =>
    let rest := loadLines (n + 1) ls
    match parseLine l with
    | .blank => rest
    | .book b => (b :: rest.1, rest.2)
    | .invalid r => (rest.1, (n, pyStrip l, r) :: rest.2)

/-- The lines of a text file (each without its trailing newline). -/
abbrev FileLines := List (List Char)

/-- `class LibraryDatabase`: in-memory books, the ISBN-validation toggle and
the load-time warnings. The backing file is threaded separately. -/
structure LibraryDatabase where
  books : List Book
  validate_isbn : Bool
  load_warnings : List Warning
deriving DecidableEq

/-- `_save_to_file`: the file content written by a save — every in-memory
book, sorted ascending by year, one serialized book per line. -/
def save_to_file (books : List Book) : FileLines :=
  (sortByYear books).map Book.to_file_format

/-- `LibraryDatabase.__init__` + `_load_from_file`: from the initial backing
file (`none` when absent) build the database state and the resulting file
state. A missing file leaves an empty store; otherwise parse every line,
record warnings, and rewrite the file sorted by year when at least one book
was loaded. -/
def load_from_file (file : Option FileLines) : LibraryDatabase × Option FileLines :=
  match file with
  | none => (LibraryDatabase.mk [] false [], none)
  | some lines =>
    let r := loadLines 1 lines
    let db := LibraryDatabase.mk r.1 false r.2
    if r.1.isEmpty then (db, some lines) else (db, some (save_to_file r.1))

/-- `isbn.replace("-", "").replace(" ", "")`: remove hyphens and spaces. -/
def cleanIsbn (isbn : List Char) : List Char :=
  isbn.filter (fun c => !(c == '-') && !(c == ' '))

/-- `isbn_clean[-1].isdigit() or isbn_clean[-1].upper() == "X"` (false on an
empty string, which the length guard makes unreachable). -/
def lastCharOk (cs : List Char) : Bool :=
  match cs.getLast? with
  | some d => d.isDigit || d.toUpper == 'X'
  | none => false

/-- `_validate_isbn_format`: length-10 digit pattern (final digit or X) gives
ISBN-10; length-13 all-digit pattern starting 978/979 gives ISBN-13;
anything else is invalid. -/
def validate_isbn_format (isbn : List Char) : Bool × Option (List Char) :=
  let c := cleanIsbn isbn
  if c.length == 10 && c.dropLast.all Char.isDigit && lastCharOk c then
    (true, some "ISBN-10".toList)
  else if c.length == 13 && c.all Char.isDigit &&
      (c.take 3 == "978".toList || c.take 3 == "979".toList) then
    (true, some "ISBN-13".toList)
  else
    (false, none)

/-- Console outcome of `LibraryDatabase.add`. -/
inductive AddResult where
  | errorFieldsRequired : AddResult
  | errorYear : AddResult
  | errorIsbn : AddResult
  | added : AddResult
deriving DecidableEq

/-- Result of `LibraryDatabase.add`: new database state, new file state,
console outcome. -/
structure AddOutcome where
  db : LibraryDatabase
  file : Option FileLines
  result : AddResult
deriving DecidableEq

/-- `LibraryDatabase.add`: reject when a field is empty (Python falsiness of
the empty string), when the year does not parse as an integer, or when
validation is on and the ISBN format check fails; otherwise append the book
and save. -/
def LibraryDatabase.add (db : LibraryDatabase) (file : Option FileLines)
    (title author isbn year : List Char) : AddOutcome :=
  if title.isEmpty || author.isEmpty || isbn.isEmpty || year.isEmpty then
    AddOutcome.mk db file .errorFieldsRequired
  else
    match pyParseInt year with
    | none => AddOutcome.mk db file .errorYear
    | some y =>
      if db.validate_isbn && !(validate_isbn_format isbn).1 then
        AddOutcome.mk db file .errorIsbn
      else
        let books := db.books ++ [Book.mk title author isbn y]
        AddOutcome.mk (LibraryDatabase.mk books db.validate_isbn db.load_warnings)
          (some (save_to_file books)) .added

/-- The page of data computed by `LibraryDatabase.list` when the store is
non-empty: total book count, total pages, clamped page number, and the books
of the displayed page. -/
structure PageView where
  totalBooks : Nat
  totalPages : Nat
  page : Int
  pageBooks : List Book
deriving DecidableEq

/-- Result of `LibraryDatabase.list`: the (unchanged) database and file
states, the displayed page (`none` when the store is empty), and the boolean
return value `total_pages > 1` (`false` also on the empty store). -/
structure ListResult where
  db : LibraryDatabase
  file : Option FileLines
  view : Option PageView
  has_pagination : Bool
deriving DecidableEq

/-- `LibraryDatabase.list`: on an empty store report empty and return
`false`; otherwise sort a copy by year, compute `total_pages` as a ceiling
division, clamp the requested page into `[1, total_pages]`, and slice the
sorted sequence to the page window. -/
def LibraryDatabase.list (db : LibraryDatabase) (file : Option FileLines)
    (page : Int) (pageSize : Nat) : ListResult :=
  if db.books.isEmpty then ListResult.mk db file none false
  else
    let sorted_books := sortByYear db.books
    let total_books := sorted_books.length
    let total_pages := (total_books + pageSize - 1) / pageSize
    let p := max 1 (min page (total_pages : Int))
    let start_idx := (p - 1).toNat * pageSize
    let end_idx := min (start_idx + pageSize) total_books
    let page_books := (sorted_books.drop start_idx).take (end_idx - start_idx)
    ListResult.mk db file (some (PageView.mk total_books total_pages p page_books))
      (decide (1 < total_pages))

/-- A backing file whose two records are out of year order. -/
def unsortedLines : FileLines := ["A/B/C/2020".toList, "D/E/F/2019".toList]

/-- A backing file none of whose lines parses as a record. -/
def allInvalidLines : FileLines := ["a/b/c".toList]

/-- 25 records with years 0..24, for the pagination example. -/
def books25 : List Book := (List.range 25).map (fun k => Book.mk [] [] [] (k : Int))

example : pyParseInt "2020".toList = some 2020 := by decide
example : pyParseInt " -42 ".toList = some (-42) := by decide
example : pyParseInt "".toList = none := by decide
example : pyParseInt "20x".toList = none := by decide
example : splitOnChar '/' "a/b/c/2000".toList =
    ["a".toList, "b".toList, "c".toList, "2000".toList] := by decide
example : parseLine " a/b/c/2000 ".toList =
    .book (Book.mk "a".toList "b".toList "c".toList 2000) := by decide
example : parseLine "a/b/c".toList = .invalid invalidFormatMsg := by decide
example : parseLine "   ".toList = .blank := by decide
example : validate_isbn_format "978-3-16-148410-0".toList =
    (true, some "ISBN-13".toList) := by decide
example : validate_isbn_format "0-306-40615-2".toList =
    (true, some "ISBN-10".toList) := by decide
example : validate_isbn_format "12345".toList = (false, none) := by decide
example : intToChars 1965 = "1965".toList := by decide
example : intToChars (-7) = "-7".toList := by decide

/-! ### Helper lemmas about the embedded primitives -/

theorem splitOnChar_ne_nil (sep : Char) (cs : List Char) : splitOnChar sep cs ≠ [] := by
  induction cs with
  | nil => simp [splitOnChar]
  | cons c cs ih =>
    rw [splitOnChar]
    cases h : splitOnChar sep cs with
    | nil => exact absurd h ih
    | cons p ps =>
      dsimp only
      split <;> simp

theorem joinSep_cons_cons (sep : Char) (p q : List Char) (ps : List (List Char)) :
    joinSep sep (p :: q :: ps) = p ++ sep :: joinSep sep (q :: ps) := rfl

theorem joinSep_splitOnChar (sep : Char) (cs : List Char) :
    joinSep sep (splitOnChar sep cs) = cs := by
  induction cs with
  | nil => rfl
  | cons c cs ih =>
    rw [splitOnChar]
    cases h : splitOnChar sep cs with
    | nil => exact absurd h (splitOnChar_ne_nil sep cs)
    | cons p ps =>
      rw [h] at ih
      dsimp only
      by_cases hc : c = sep
      · subst hc
        simp [joinSep_cons_cons, ih]
      · rw [if_neg hc]
        cases ps with
        | nil =>
          simp only [joinSep] at ih ⊢
          rw [ih]
        | cons q qs =>
          rw [joinSep_cons_cons] at ih
          rw [joinSep_cons_cons, List.cons_append, ih]

theorem insertByYear_perm (b : Book) (l : List Book) :
    List.Perm (insertByYear b l) (b :: l) := by
  induction l with
  | nil => exact List.Perm.refl _
  | cons c cs ih =>
    rw [insertByYear]
    split
    · exact List.Perm.refl _
    · exact (ih.cons c).trans (List.Perm.swap b c cs)

theorem sortByYear_perm (l : List Book) : List.Perm (sortByYear l) l := by
  induction l with
  | nil => exact List.Perm.refl _
  | cons b bs ih => exact (insertByYear_perm b _).trans (ih.cons b)

theorem insertByYear_pairwise (b : Book) (l : List Book)
    (h : l.Pairwise (fun x y => x.year ≤ y.year)) :
    (insertByYear b l).Pairwise (fun x y => x.year ≤ y.year) := by
  induction l with
  | nil => simp [insertByYear]
  | cons c cs ih =>
    rw [List.pairwise_cons] at h
    obtain ⟨hc, hcs⟩ := h
    rw [insertByYear]
    split
    · rename_i hb
      refine List.pairwise_cons.mpr ⟨?_, List.pairwise_cons.mpr ⟨hc, hcs⟩⟩
      intro x hx
      rcases List.mem_cons.mp hx with rfl | hx'
      · exact hb
      · exact le_trans hb (hc x hx')
    · rename_i hb
      push_neg at hb
      refine List.pairwise_cons.mpr ⟨?_, ih hcs⟩
      intro x hx
      rcases List.mem_cons.mp ((insertByYear_perm b cs).mem_iff.mp hx) with rfl | hx'
      · exact le_of_lt hb
      · exact hc x hx'

theorem sortByYear_pairwise (l : List Book) :
    (sortByYear l).Pairwise (fun x y => x.year ≤ y.year) := by
  induction l with
  | nil => simp [sortByYear]
  | cons b bs ih => exact insertByYear_pairwise b _ ih

theorem char_ofNat_toNat_small : ∀ m, m < 123 → (Char.ofNat m).toNat = m := by decide

theorem toUpper_eq_X_iff (d : Char) : d.toUpper = 'X' ↔ d = 'X' ∨ d = 'x' := by
  constructor
  · intro h
    rw [Char.toUpper] at h
    split at h
    · rename_i hr
      have h8 : (Char.ofNat (Char.toNat d - 32)).toNat = 88 := by rw [h]; rfl
      rw [char_ofNat_toNat_small _ (by omega)] at h8
      have hd : d = Char.ofNat (Char.toNat d) := (Char.ofNat_toNat d).symm
      have h120 : Char.toNat d = 120 := by omega
      rw [h120] at hd
      exact Or.inr (hd.trans (by decide))
    · exact Or.inl h
  · rintro (rfl | rfl) <;> decide

theorem lastCharOk_iff (cs : List Char) :
    lastCharOk cs = true ↔
      ∃ d, cs.getLast? = some d ∧ (d.isDigit = true ∨ d = 'X' ∨ d = 'x') := by
  unfold lastCharOk
  cases h : cs.getLast? with
  | none => simp
  | some d => simp [Bool.or_eq_true, beq_iff_eq, toUpper_eq_X_iff]

/-- C1 (counterexample): loading a file whose records are out of year order
leaves the in-memory sequence in file order, so it is not sorted ascending
by year after `load`. -/
theorem C1_counterexample :
    ((load_from_file (some unsortedLines)).1.books.map Book.year) = [2020, 2019] ∧
    ¬ List.Pairwise (fun x y => x ≤ y)
      ((load_from_file (some unsortedLines)).1.books.map Book.year) := by
  constructor
  · decide
  · decide

/-- C1 (amended): after `load`, the in-memory sequence is the successfully
parsed records in file order (not necessarily sorted); when at least one
record was parsed, the backing file is rewritten and the rewritten sequence
of records is sorted ascending by year. -/
theorem C1_load_order (lines : FileLines) :
    (load_from_file (some lines)).1.books = (loadLines 1 lines).1 ∧
    ((load_from_file (some lines)).1.books ≠ [] →
      (load_from_file (some lines)).2
          = some ((sortByYear (load_from_file (some lines)).1.books).map Book.to_file_format) ∧
      List.Pairwise (fun x y => x ≤ y)
        ((sortByYear (load_from_file (some lines)).1.books).map Book.year)) := by
  unfold load_from_file
  dsimp only
  split
  · rename_i hemp
    refine ⟨rfl, fun hne => absurd ?_ hne⟩
    exact List.isEmpty_iff.mp hemp
  · refine ⟨rfl, fun hne => ⟨rfl, ?_⟩⟩
    rw [List.pairwise_map]
    exact sortByYear_pairwise _

/-- C1 (witness): the amended claim evaluated on a concrete two-record file. -/
theorem C1_load_order_witness :
    (load_from_file (some unsortedLines)).1.books ≠ [] ∧
    ((load_from_file (some unsortedLines)).2
        = some ((sortByYear (load_from_file (some unsortedLines)).1.books).map Book.to_file_format) ∧
     List.Pairwise (fun x y => x ≤ y)
       ((sortByYear (load_from_file (some unsortedLines)).1.books).map Book.year)) :=
  ⟨by decide, (C1_load_order unsortedLines).2 (by decide)⟩

/-- C2: when at least one record parses, `load` rewrites the file to exactly
the serializations of the parsed records sorted ascending by year (a
permutation of the in-memory records, in ascending year order), discarding
everything else; when no record parses, the file is left as it was. -/
theorem C2_load_rewrite (lines : FileLines) :
    ((load_from_file (some lines)).1.books ≠ [] →
      (load_from_file (some lines)).2
          = some ((sortByYear (load_from_file (some lines)).1.books).map Book.to_file_format) ∧
      List.Perm (sortByYear (load_from_file (some lines)).1.books)
        (load_from_file (some lines)).1.books ∧
      List.Pairwise (fun x y => x ≤ y)
        ((sortByYear (load_from_file (some lines)).1.books).map Book.year)) ∧
    ((load_from_file (some lines)).1.books = [] →
      (load_from_file (some lines)).2 = some lines) := by
  unfold load_from_file
  dsimp only
  split
  · rename_i hemp
    refine ⟨fun hne => absurd (List.isEmpty_iff.mp hemp) hne, fun _ => rfl⟩
  · rename_i hemp
    refine ⟨fun _ => ⟨rfl, sortByYear_perm _, ?_⟩, fun heq => ?_⟩
    · rw [List.pairwise_map]
      exact sortByYear_pairwise _
    · exact absurd (List.isEmpty_iff.mpr heq) hemp

/-- C2 (witness): the rewrite branch on a two-record file and the
no-rewrite branch on a file with no parsable record. -/
theorem C2_load_rewrite_witness :
    ((load_from_file (some unsortedLines)).1.books ≠ [] ∧
      ((load_from_file (some unsortedLines)).2
          = some ((sortByYear (load_from_file (some unsortedLines)).1.books).map Book.to_file_format) ∧
       List.Perm (sortByYear (load_from_file (some unsortedLines)).1.books)
         (load_from_file (some unsortedLines)).1.books ∧
       List.Pairwise (fun x y => x ≤ y)
         ((sortByYear (load_from_file (some unsortedLines)).1.books).map Book.year))) ∧
    ((load_from_file (some allInvalidLines)).1.books = [] ∧
      (load_from_file (some allInvalidLines)).2 = some allInvalidLines) :=
  ⟨⟨by decide, (C2_load_rewrite unsortedLines).1 (by decide)⟩,
   ⟨by decide, (C2_load_rewrite allInvalidLines).2 (by decide)⟩⟩

/-- C8: `list` leaves the whole state unchanged — the database (books in
their stored order, validation flag, warnings) and the backing file are the
same after the call as before, for every page argument. -/
theorem C8_list_frame (db : LibraryDatabase) (file : Option FileLines)
    (page : Int) (pageSize : Nat) :
    (db.list file page pageSize).db = db ∧ (db.list file page pageSize).file = file := by
  unfold LibraryDatabase.list
  split
  · exact ⟨rfl, rfl⟩
  · exact ⟨rfl, rfl⟩

theorem cond10_iff (s : List Char) :
    ((cleanIsbn s).length == 10 && (cleanIsbn s).dropLast.all Char.isDigit
      && lastCharOk (cleanIsbn s)) = true ↔
    ((cleanIsbn s).length = 10 ∧ ((cleanIsbn s).take 9).all Char.isDigit = true ∧
      ∃ d, (cleanIsbn s).getLast? = some d ∧ (d.isDigit = true ∨ d = 'X' ∨ d = 'x')) := by
  constructor
  · intro h
    simp only [Bool.and_eq_true, beq_iff_eq] at h
    obtain ⟨⟨hlen, hdig⟩, hlast⟩ := h
    refine ⟨hlen, ?_, (lastCharOk_iff _).mp hlast⟩
    rw [List.dropLast_eq_take, hlen] at hdig
    simpa using hdig
  · rintro ⟨hlen, hdig, hlast⟩
    simp only [Bool.and_eq_true, beq_iff_eq]
    refine ⟨⟨hlen, ?_⟩, (lastCharOk_iff _).mpr hlast⟩
    rw [List.dropLast_eq_take, hlen]
    simpa using hdig

theorem cond13_iff (s : List Char) :
    ((cleanIsbn s).length == 13 && (cleanIsbn s).all Char.isDigit
      && ((cleanIsbn s).take 3 == "978".toList || (cleanIsbn s).take 3 == "979".toList))
        = true ↔
    ((cleanIsbn s).length = 13 ∧ (cleanIsbn s).all Char.isDigit = true ∧
      ((cleanIsbn s).take 3 = "978".toList ∨ (cleanIsbn s).take 3 = "979".toList)) := by
  simp [Bool.and_eq_true, Bool.or_eq_true, beq_iff_eq, and_assoc]

theorem cond10_cond13_exclusive (s : List Char)
    (h10 : ((cleanIsbn s).length == 10 && (cleanIsbn s).dropLast.all Char.isDigit
      && lastCharOk (cleanIsbn s)) = true)
    (h13 : ((cleanIsbn s).length == 13 && (cleanIsbn s).all Char.isDigit
      && ((cleanIsbn s).take 3 == "978".toList || (cleanIsbn s).take 3 == "979".toList))
        = true) : False := by
  simp only [Bool.and_eq_true, beq_iff_eq] at h10 h13
  omega

/-- C4: `validate_isbn_format` strips hyphens and spaces, reports ISBN-10
exactly when the cleaned string has 10 characters, the first 9 digits and
the last a digit or X/x, reports ISBN-13 exactly when it has 13 digits
starting 978 or 979, and reports invalid otherwise; with the three concrete
examples of the specification. -/
theorem C4_validate_isbn_format :
    (∀ s, validate_isbn_format s = (true, some "ISBN-10".toList) ↔
      ((cleanIsbn s).length = 10 ∧ ((cleanIsbn s).take 9).all Char.isDigit = true ∧
        ∃ d, (cleanIsbn s).getLast? = some d ∧ (d.isDigit = true ∨ d = 'X' ∨ d = 'x'))) ∧
    (∀ s, validate_isbn_format s = (true, some "ISBN-13".toList) ↔
      ((cleanIsbn s).length = 13 ∧ (cleanIsbn s).all Char.isDigit = true ∧
        ((cleanIsbn s).take 3 = "978".toList ∨ (cleanIsbn s).take 3 = "979".toList))) ∧
    (∀ s, ¬((cleanIsbn s).length = 10 ∧ ((cleanIsbn s).take 9).all Char.isDigit = true ∧
        ∃ d, (cleanIsbn s).getLast? = some d ∧ (d.isDigit = true ∨ d = 'X' ∨ d = 'x')) →
      ¬((cleanIsbn s).length = 13 ∧ (cleanIsbn s).all Char.isDigit = true ∧
        ((cleanIsbn s).take 3 = "978".toList ∨ (cleanIsbn s).take 3 = "979".toList)) →
      validate_isbn_format s = (false, none)) ∧
    validate_isbn_format "978-3-16-148410-0".toList = (true, some "ISBN-13".toList) ∧
    validate_isbn_format "0-306-40615-2".toList = (true, some "ISBN-10".toList) ∧
    validate_isbn_format "12345".toList = (false, none) := by
  refine ⟨?_, ?_, ?_, by decide, by decide, by decide⟩
  · intro s
    rw [← cond10_iff s]
    unfold validate_isbn_format
    dsimp only
    split
    · rename_i hA
      exact iff_of_true rfl hA
    · rename_i hA
      split
      · exact iff_of_false (by decide) hA
      · exact iff_of_false (by decide) hA
  · intro s
    rw [← cond13_iff s]
    unfold validate_isbn_format
    dsimp only
    split
    · rename_i hA
      exact iff_of_false (by decide) (fun hB => cond10_cond13_exclusive s hA hB)
    · split
      · rename_i hB
        exact iff_of_true rfl hB
      · rename_i hB
        exact iff_of_false (by decide) hB
  · intro s h10 h13
    unfold validate_isbn_format
    dsimp only
    split
    · rename_i hA
      exact absurd ((cond10_iff s).mp hA) h10
    · split
      · rename_i hB
        exact absurd ((cond13_iff s).mp hB) h13
      · rfl

/-- C4 (witness): the "otherwise invalid" case applied to `"12345"`. -/
theorem C4_validate_isbn_format_witness :
    validate_isbn_format "12345".toList = (false, none) :=
  C4_validate_isbn_format.2.2.1 "12345".toList
    (fun hc => absurd hc.1 (by decide)) (fun hc => absurd hc.1 (by decide))

/-- C9: the validator's flag and kind are consistent — the kind is `none`
exactly when the flag is false, a true flag comes with kind ISBN-10 or
ISBN-13, and the length-10 and length-13 cases can never hold at once. -/
theorem C9_validate_consistency : ∀ s,
    ((validate_isbn_format s).2 = none ↔ (validate_isbn_format s).1 = false) ∧
    ((validate_isbn_format s).1 = true →
      (validate_isbn_format s).2 = some "ISBN-10".toList ∨
      (validate_isbn_format s).2 = some "ISBN-13".toList) ∧
    ¬((cleanIsbn s).length = 10 ∧ (cleanIsbn s).length = 13) := by
  intro s
  refine ⟨?_, ?_, by omega⟩
  · unfold validate_isbn_format
    dsimp only
    split
    · simp
    · split
      · simp
      · simp
  · unfold validate_isbn_format
    dsimp only
    split
    · exact fun _ => Or.inl rfl
    · split
      · exact fun _ => Or.inr rfl
      · intro h
        exact absurd h (by simp)

/-- C9 (witness): the true-flag case applied to a valid ISBN-10. -/
theorem C9_validate_consistency_witness :
    (validate_isbn_format "0-306-40615-2".toList).1 = true ∧
    ((validate_isbn_format "0-306-40615-2".toList).2 = some "ISBN-10".toList ∨
     (validate_isbn_format "0-306-40615-2".toList).2 = some "ISBN-13".toList) :=
  ⟨by decide, (C9_validate_consistency "0-306-40615-2".toList).2.1 (by decide)⟩

/-- C5: `add` with an empty field, an unparsable year, or (when validation
is on) an invalid ISBN aborts with an error and leaves the database and the
backing file untouched; otherwise it appends the new record and saves. -/
theorem C5_add (db : LibraryDatabase) (file : Option FileLines) (t a i y : List Char) :
    ((t = [] ∨ a = [] ∨ i = [] ∨ y = [] ∨ pyParseInt y = none ∨
        (db.validate_isbn = true ∧ (validate_isbn_format i).1 = false)) →
      (db.add file t a i y).db = db ∧ (db.add file t a i y).file = file ∧
      (db.add file t a i y).result ≠ .added) ∧
    (∀ n, ¬(t = [] ∨ a = [] ∨ i = [] ∨ y = []) → pyParseInt y = some n →
      ¬(db.validate_isbn = true ∧ (validate_isbn_format i).1 = false) →
      db.add file t a i y =
        AddOutcome.mk
          (LibraryDatabase.mk (db.books ++ [Book.mk t a i n]) db.validate_isbn db.load_warnings)
          (some (save_to_file (db.books ++ [Book.mk t a i n]))) .added) := by
  constructor
  · intro hbad
    unfold LibraryDatabase.add
    split
    · exact ⟨rfl, rfl, by simp⟩
    · rename_i hfields
      cases hp : pyParseInt y with
      | none => exact ⟨rfl, rfl, by simp⟩
      | some yv =>
        dsimp only
        split
        · exact ⟨rfl, rfl, by simp⟩
        · rename_i hv
          exfalso
          simp only [Bool.or_eq_true, List.isEmpty_iff] at hfields
          push_neg at hfields
          simp only [Bool.and_eq_true, Bool.not_eq_true'] at hv
          rcases hbad with h | h | h | h | h | h
          · exact hfields.1.1.1 h
          · exact hfields.1.1.2 h
          · exact hfields.1.2 h
          · exact hfields.2 h
          · rw [hp] at h
            cases h
          · exact hv h
  · intro n hne hp hv
    have h1 : ¬((t.isEmpty || a.isEmpty || i.isEmpty || y.isEmpty) = true) := by
      simp only [Bool.or_eq_true, List.isEmpty_iff]
      push_neg
      exact ⟨⟨⟨fun h => hne (Or.inl h), fun h => hne (Or.inr (Or.inl h))⟩,
        fun h => hne (Or.inr (Or.inr (Or.inl h)))⟩,
        fun h => hne (Or.inr (Or.inr (Or.inr h)))⟩
    have h2 : ¬((db.validate_isbn && !(validate_isbn_format i).1) = true) := by
      simpa [Bool.and_eq_true, Bool.not_eq_true'] using hv
    unfold LibraryDatabase.add
    rw [if_neg h1, hp]
    dsimp only
    rw [if_neg h2]

/-- C5 (witness): the empty-title rejection and a successful append, both on
a concrete empty database. -/
theorem C5_add_witness :
    (((LibraryDatabase.mk [] false []).add none [] "A".toList "1".toList "2020".toList).db
        = LibraryDatabase.mk [] false [] ∧
     ((LibraryDatabase.mk [] false []).add none [] "A".toList "1".toList "2020".toList).file
        = none ∧
     ((LibraryDatabase.mk [] false []).add none [] "A".toList "1".toList "2020".toList).result
        ≠ .added) ∧
    (LibraryDatabase.mk [] false []).add none "T".toList "A".toList "1".toList "2020".toList =
      AddOutcome.mk
        (LibraryDatabase.mk ([] ++ [Book.mk "T".toList "A".toList "1".toList 2020]) false [])
        (some (save_to_file ([] ++ [Book.mk "T".toList "A".toList "1".toList 2020]))) .added :=
  ⟨(C5_add (LibraryDatabase.mk [] false []) none [] "A".toList "1".toList "2020".toList).1
      (Or.inl rfl),
   (C5_add (LibraryDatabase.mk [] false []) none "T".toList "A".toList "1".toList
      "2020".toList).2 2020 (by decide) (by decide) (by decide)⟩

/-- C10 (counterexample): a call to `add` in which every field is a
non-empty string — the year being the whitespace-only string `" "` — is
rejected (the year does not parse), so the record is not appended even
though no field is empty. -/
theorem C10_counterexample :
    ([' '] : List Char) ≠ [] ∧ "A".toList ≠ ([] : List Char) ∧
    "1".toList ≠ ([] : List Char) ∧ ([' '] : List Char) ≠ [] ∧
    ((LibraryDatabase.mk [] false []).add none [' '] "A".toList "1".toList [' ']).result
      = .errorYear ∧
    ((LibraryDatabase.mk [] false []).add none [' '] "A".toList "1".toList [' ']).db
      = LibraryDatabase.mk [] false [] := by
  refine ⟨by decide, by decide, by decide, by decide, by decide, by decide⟩

/-- C10 (amended): the emptiness check does not strip whitespace — any
non-empty fields, including whitespace-only ones, pass it — and provided
the year parses as an integer and (when validation is enabled) the ISBN
passes the format check, the record is appended and persisted. -/
theorem C10_whitespace_fields (db : LibraryDatabase) (file : Option FileLines)
    (t a i y : List Char) (n : Int)
    (ht : t ≠ []) (ha : a ≠ []) (hi : i ≠ []) (hy : y ≠ []) :
    (db.add file t a i y).result ≠ .errorFieldsRequired ∧
    (pyParseInt y = some n →
      (db.validate_isbn = true → (validate_isbn_format i).1 = true) →
      (db.add file t a i y).result = .added ∧
      (db.add file t a i y).db.books = db.books ++ [Book.mk t a i n] ∧
      (db.add file t a i y).file = some (save_to_file (db.books ++ [Book.mk t a i n]))) := by
  have h1 : ¬((t.isEmpty || a.isEmpty || i.isEmpty || y.isEmpty) = true) := by
    simp only [Bool.or_eq_true, List.isEmpty_iff]
    push_neg
    exact ⟨⟨⟨ht, ha⟩, hi⟩, hy⟩
  unfold LibraryDatabase.add
  rw [if_neg h1]
  constructor
  · cases hp : pyParseInt y with
    | none => simp
    | some m =>
      dsimp only
      split
      · simp
      · simp
  · intro hp hv
    rw [hp]
    dsimp only
    have h2 : ¬((db.validate_isbn && !(validate_isbn_format i).1) = true) := by
      simp only [Bool.and_eq_true, Bool.not_eq_true']
      rintro ⟨hf, hvf⟩
      exact absurd (hv hf) (by rw [hvf]; decide)
    rw [if_neg h2]
    exact ⟨rfl, rfl, rfl⟩

/-- C10 (witness): a whitespace-only title `" "` with otherwise valid input
is appended and persisted. -/
theorem C10_whitespace_fields_witness :
    (((LibraryDatabase.mk [] false []).add none [' '] "A".toList "1".toList
        "2020".toList).result ≠ .errorFieldsRequired) ∧
    (((LibraryDatabase.mk [] false []).add none [' '] "A".toList "1".toList
        "2020".toList).result = .added ∧
     ((LibraryDatabase.mk [] false []).add none [' '] "A".toList "1".toList
        "2020".toList).db.books = [] ++ [Book.mk [' '] "A".toList "1".toList 2020] ∧
     ((LibraryDatabase.mk [] false []).add none [' '] "A".toList "1".toList
        "2020".toList).file
        = some (save_to_file ([] ++ [Book.mk [' '] "A".toList "1".toList 2020]))) :=
  ⟨(C10_whitespace_fields (LibraryDatabase.mk [] false []) none [' '] "A".toList
      "1".toList "2020".toList 2020 (by decide) (by decide) (by decide) (by decide)).1,
   (C10_whitespace_fields (LibraryDatabase.mk [] false []) none [' '] "A".toList
      "1".toList "2020".toList 2020 (by decide) (by decide) (by decide) (by decide)).2
      (by decide) (fun h => absurd h (by decide))⟩

theorem take_window {α : Type} (l : List α) (s ps : Nat) :
    (l.drop s).take (min (s + ps) l.length - s) = (l.drop s).take ps := by
  have hd : (l.drop s).length = l.length - s := List.length_drop s l
  rcases le_total (s + ps) l.length with h | h
  · rw [min_eq_left h]
    congr 1
    omega
  · rw [min_eq_right h]
    have h1 : (l.drop s).length ≤ l.length - s := le_of_eq hd
    have h2 : (l.drop s).length ≤ ps := by
      rw [hd]
      omega
    rw [List.take_of_length_le h1, List.take_of_length_le h2]

/-- C3: on a non-empty store with positive page size, `list` reports
`totalPages = ceil(count / pageSize)`, clamps the requested page into
`[1, totalPages]`, and returns the page window of the year-sorted sequence;
on an empty store it reports empty with the no-pagination flag; and with 25
records and page size 10, pages 0 and 99 clamp to 1 and 3 of 3 total pages. -/
theorem C3_list_pagination :
    (∀ (db : LibraryDatabase) (file : Option FileLines) (page : Int) (ps : Nat),
      db.books ≠ [] → 0 < ps →
      ∃ v, (db.list file page ps).view = some v ∧
        v.totalBooks = db.books.length ∧
        v.totalPages = v.totalBooks ⌈/⌉ ps ∧
        v.page = max 1 (min page (v.totalPages : Int)) ∧
        1 ≤ v.page ∧ v.page ≤ (v.totalPages : Int) ∧
        v.pageBooks = ((sortByYear db.books).drop ((v.page - 1).toNat * ps)).take ps ∧
        (db.list file page ps).has_pagination = decide (1 < v.totalPages)) ∧
    (∀ (db : LibraryDatabase) (file : Option FileLines) (page : Int) (ps : Nat),
      db.books = [] →
      (db.list file page ps).view = none ∧ (db.list file page ps).has_pagination = false) ∧
    (((LibraryDatabase.mk books25 false []).list none 0 10).view.map PageView.totalPages
        = some 3 ∧
     ((LibraryDatabase.mk books25 false []).list none 0 10).view.map PageView.page
        = some 1) ∧
    (((LibraryDatabase.mk books25 false []).list none 99 10).view.map PageView.totalPages
        = some 3 ∧
     ((LibraryDatabase.mk books25 false []).list none 99 10).view.map PageView.page
        = some 3) := by
  refine ⟨?_, ?_, ⟨by decide, by decide⟩, ⟨by decide, by decide⟩⟩
  · intro db file page ps hne hps
    have hn1 : 1 ≤ (sortByYear db.books).length := by
      rw [(sortByYear_perm db.books).length_eq]
      exact List.length_pos.mpr hne
    have htp : 1 ≤ ((sortByYear db.books).length + ps - 1) / ps := by
      rw [Nat.le_div_iff_mul_le hps]
      omega
    have htpz : (1 : Int) ≤ ((((sortByYear db.books).length + ps - 1) / ps : Nat) : Int) := by
      exact_mod_cast htp
    unfold LibraryDatabase.list
    rw [if_neg (by simpa [List.isEmpty_iff] using hne)]
    dsimp only
    refine ⟨_, rfl, (sortByYear_perm db.books).length_eq, ?_, rfl, le_max_left 1 _, ?_, ?_, rfl⟩
    · rw [Nat.ceilDiv_eq_add_pred_div]
    · exact max_le htpz (min_le_right _ _)
    · exact take_window (sortByYear db.books) _ ps
  · intro db file page ps heq
    unfold LibraryDatabase.list
    rw [if_pos (List.isEmpty_iff.mpr heq)]
    exact ⟨rfl, rfl⟩

/-- C3 (witness): the non-empty contract applied to the 25-record store with
page size 10 and requested page 0. -/
theorem C3_list_pagination_witness :
    ∃ v, ((LibraryDatabase.mk books25 false []).list none 0 10).view = some v ∧
      v.totalBooks = books25.length ∧
      v.totalPages = v.totalBooks ⌈/⌉ 10 ∧
      v.page = max 1 (min 0 (v.totalPages : Int)) ∧
      1 ≤ v.page ∧ v.page ≤ (v.totalPages : Int) ∧
      v.pageBooks = ((sortByYear books25).drop ((v.page - 1).toNat * 10)).take 10 ∧
      ((LibraryDatabase.mk books25 false []).list none 0 10).has_pagination
        = decide (1 < v.totalPages) :=
  C3_list_pagination.1 (LibraryDatabase.mk books25 false []) none 0 10 (by decide) (by decide)

/-- C6 (counterexample): a whitespace-only line splits into 1 part (not 4)
yet is skipped with no warning at all, and the warning recorded for an
invalid line carries the stripped text, not the original line text. -/
theorem C6_counterexample :
    (splitOnChar '/' (pyStrip "   ".toList)).length ≠ 4 ∧
    loadLines 1 ["   ".toList, " a/b/c ".toList]
      = ([], [(2, "a/b/c".toList, invalidFormatMsg)]) ∧
    " a/b/c ".toList ≠ "a/b/c".toList := by
  refine ⟨by decide, by decide, by decide⟩

/-- C6 (amended): a line whose stripped text is non-empty is rejected iff
its stripped text does not split on `/` into exactly 4 parts with an
integer 4th part; blank lines are skipped silently; a rejected line is
recorded as a warning with its 1-based line number, stripped text and
reason; and the one-valid-one-invalid file gives exactly 1 record and 1
warning with the expected line number and reason. -/
theorem C6_line_rejection :
    (∀ line, pyStrip line ≠ [] →
      ((∃ r, parseLine line = .invalid r) ↔
        ¬((splitOnChar '/' (pyStrip line)).length = 4 ∧
          (pyParseInt ((splitOnChar '/' (pyStrip line)).getD 3 [])).isSome = true))) ∧
    (∀ line, pyStrip line = [] →
      (parseLine line = .blank ∧
        ∀ k ls, loadLines k (line :: ls) = loadLines (k + 1) ls)) ∧
    (∀ k line ls r, parseLine line = .invalid r →
      loadLines k (line :: ls) =
        ((loadLines (k + 1) ls).1, (k, pyStrip line, r) :: (loadLines (k + 1) ls).2)) ∧
    loadLines 1 ["T/A/I/2000".toList, "a/b/c".toList]
      = ([Book.mk "T".toList "A".toList "I".toList 2000],
         [(2, "a/b/c".toList, invalidFormatMsg)]) := by
  refine ⟨?_, ?_, ?_, by decide⟩
  · intro line hne
    unfold parseLine
    dsimp only
    rw [if_neg (by simpa [List.isEmpty_iff] using hne)]
    generalize hsp : splitOnChar '/' (pyStrip line) = L
    rcases L with _ | ⟨x0, _ | ⟨x1, _ | ⟨x2, _ | ⟨x3, _ | ⟨x4, tl⟩⟩⟩⟩⟩ <;> dsimp only
    · refine iff_of_true ⟨invalidFormatMsg, rfl⟩ ?_
      rintro ⟨hA, _⟩
      simp only [List.length_nil] at hA
      omega
    · refine iff_of_true ⟨invalidFormatMsg, rfl⟩ ?_
      rintro ⟨hA, _⟩
      simp only [List.length_cons, List.length_nil] at hA
      omega
    · refine iff_of_true ⟨invalidFormatMsg, rfl⟩ ?_
      rintro ⟨hA, _⟩
      simp only [List.length_cons, List.length_nil] at hA
      omega
    · refine iff_of_true ⟨invalidFormatMsg, rfl⟩ ?_
      rintro ⟨hA, _⟩
      simp only [List.length_cons, List.length_nil] at hA
      omega
    · cases hp : pyParseInt x3 with
      | some n =>
        refine iff_of_false ?_ ?_
        · rintro ⟨r, hr⟩
          exact LineResult.noConfusion hr
        · intro hcon
          exact hcon ⟨rfl, by simp [List.getD_cons_succ, List.getD_cons_zero, hp]⟩
      | none =>
        refine iff_of_true ⟨invalidIntMsg x3, rfl⟩ ?_
        rintro ⟨hA, hB⟩
        simp [List.getD_cons_succ, List.getD_cons_zero, hp] at hB
    · refine iff_of_true ⟨invalidFormatMsg, rfl⟩ ?_
      rintro ⟨hA, _⟩
      simp only [List.length_cons, List.length_nil] at hA
      omega
  · intro line h
    have hb : parseLine line = .blank := by
      unfold parseLine
      dsimp only
      rw [if_pos (List.isEmpty_iff.mpr h)]
    refine ⟨hb, fun k ls => ?_⟩
    rw [loadLines, hb]
  · intro k line ls r hr
    rw [loadLines, hr]

/-- C6 (witness): the rejection criterion applied to a 3-field line. -/
theorem C6_line_rejection_witness :
    pyStrip "a/b/c".toList ≠ [] ∧
    ((∃ r, parseLine "a/b/c".toList = .invalid r) ↔
      ¬((splitOnChar '/' (pyStrip "a/b/c".toList)).length = 4 ∧
        (pyParseInt ((splitOnChar '/' (pyStrip "a/b/c".toList)).getD 3 [])).isSome = true)) :=
  ⟨by decide, C6_line_rejection.1 "a/b/c".toList (by decide)⟩

/-- C7 (counterexample): the line `A/B/C/007` splits into exactly 4 fields
with no `/` in any field and an integer 4th field, parses successfully, but
serializing the parsed record yields `A/B/C/7`, not the original line. -/
theorem C7_counterexample :
    (splitOnChar '/' "A/B/C/007".toList).length = 4 ∧
    (∀ p ∈ splitOnChar '/' "A/B/C/007".toList, '/' ∉ p) ∧
    pyParseInt "007".toList = some 7 ∧
    parseLine "A/B/C/007".toList = .book (Book.mk "A".toList "B".toList "C".toList 7) ∧
    (Book.mk "A".toList "B".toList "C".toList 7).to_file_format ≠ "A/B/C/007".toList := by
  refine ⟨by decide, by decide, by decide, by decide, by decide⟩

/-- C7 (amended): a line with no leading or trailing whitespace that splits
on `/` into exactly 4 fields whose 4th field is the canonical decimal
representation of an integer parses successfully, and serializing the
parsed record reproduces the original line. -/
theorem C7_roundtrip (s t a i y : List Char) (n : Int)
    (hstrip : pyStrip s = s)
    (hsplit : splitOnChar '/' s = [t, a, i, y])
    (hy : pyParseInt y = some n)
    (hcanon : intToChars n = y) :
    parseLine s = .book (Book.mk t a i n) ∧
    (Book.mk t a i n).to_file_format = s := by
  have hjoin : s = t ++ '/' :: (a ++ '/' :: (i ++ '/' :: y)) := by
    have hj := joinSep_splitOnChar '/' s
    rw [hsplit] at hj
    exact hj.symm
  have hne : ¬(s.isEmpty = true) := by
    intro h
    rw [List.isEmpty_iff] at h
    rw [h] at hsplit
    simp [splitOnChar] at hsplit
  constructor
  · unfold parseLine
    dsimp only
    rw [hstrip, if_neg hne, hsplit]
    dsimp only
    rw [hy]
  · unfold Book.to_file_format
    dsimp only
    rw [hcanon]
    exact hjoin.symm

/-- C7 (witness): the amended round-trip applied to a concrete valid line. -/
theorem C7_roundtrip_witness :
    pyStrip "Dune/Frank Herbert/0441013597/1965".toList
        = "Dune/Frank Herbert/0441013597/1965".toList ∧
    splitOnChar '/' "Dune/Frank Herbert/0441013597/1965".toList
        = ["Dune".toList, "Frank Herbert".toList, "0441013597".toList, "1965".toList] ∧
    pyParseInt "1965".toList = some 1965 ∧
    intToChars 1965 = "1965".toList ∧
    (parseLine "Dune/Frank Herbert/0441013597/1965".toList
        = .book (Book.mk "Dune".toList "Frank Herbert".toList "0441013597".toList 1965) ∧
     (Book.mk "Dune".toList "Frank Herbert".toList "0441013597".toList 1965).to_file_format
        = "Dune/Frank Herbert/0441013597/1965".toList) :=
  ⟨by decide, by decide, by decide, by decide,
   C7_roundtrip "Dune/Frank Herbert/0441013597/1965".toList "Dune".toList
     "Frank Herbert".toList "0441013597".toList "1965".toList 1965
     (by decide) (by decide) (by decide) (by decide)⟩
